import Mathlib

/-!
# Verification of the Incident-Scribe data aggregation script

Shallow embedding of `kestra/scripts/aggregate_data.py`.
-/

/-- JSON-like values as produced by Python's `json.load`: `null`, booleans,
numbers, strings, arrays, and objects (dicts, modelled as association lists
with the keys in insertion order). -/
inductive JVal where
  | null : JVal
  | bool (b : Bool) : JVal
  | num (n : Int) : JVal
  | str (s : String) : JVal
  | arr (elems : List JVal) : JVal
  | obj (fields : List (String × JVal)) : JVal

mutual

/-- Decidable structural equality on JSON values. -/
def JVal.decEq : (a b : JVal) → Decidable (a = b)
  | .null, .null => isTrue rfl
  | .bool a, .bool b =>
      if h : a = b then isTrue (by rw [h]) else isFalse (fun hh => h (by injection hh))
  | .num a, .num b =>
      if h : a = b then isTrue (by rw [h]) else isFalse (fun hh => h (by injection hh))
  | .str a, .str b =>
      if h : a = b then isTrue (by rw [h]) else isFalse (fun hh => h (by injection hh))
  | .arr as, .arr bs =>
      match JVal.decEqList as bs with
      | isTrue h => isTrue (by rw [h])
      | isFalse h => isFalse (fun hh => h (by injection hh))
  | .obj as, .obj bs =>
      match JVal.decEqFields as bs with
      | isTrue h => isTrue (by rw [h])
      | isFalse h => isFalse (fun hh => h (by injection hh))
  | .null, .bool _ | .null, .num _ | .null, .str _ | .null, .arr _ | .null, .obj _
  | .bool _, .null | .bool _, .num _ | .bool _, .str _ | .bool _, .arr _ | .bool _, .obj _
  | .num _, .null | .num _, .bool _ | .num _, .str _ | .num _, .arr _ | .num _, .obj _
  | .str _, .null | .str _, .bool _ | .str _, .num _ | .str _, .arr _ | .str _, .obj _
  | .arr _, .null | .arr _, .bool _ | .arr _, .num _ | .arr _, .str _ | .arr _, .obj _
  | .obj _, .null | .obj _, .bool _ | .obj _, .num _ | .obj _, .str _ | .obj _, .arr _ =>
      isFalse (by intro h; exact JVal.noConfusion h)

/-- Decidable equality on lists of JSON values. -/
def JVal.decEqList : (as bs : List JVal) → Decidable (as = bs)
  | [], [] => isTrue rfl
  | a :: as, b :: bs =>
      match JVal.decEq a b, JVal.decEqList as bs with
      | isTrue h1, isTrue h2 => isTrue (by rw [h1, h2])
      | isFalse h1, _ => isFalse (fun hh => h1 (by injection hh))
      | _, isFalse h2 => isFalse (fun hh => h2 (by injection hh))
  | [], _ :: _ => isFalse (fun hh => by injection hh)
  | _ :: _, [] => isFalse (fun hh => by injection hh)

/-- Decidable equality on association lists of string keys and JSON values. -/
def JVal.decEqFields : (as bs : List (String × JVal)) → Decidable (as = bs)
  | [], [] => isTrue rfl
  | (k1, v1) :: as, (k2, v2) :: bs =>
      match String.decEq k1 k2, JVal.decEq v1 v2, JVal.decEqFields as bs with
      | isTrue h1, isTrue h2, isTrue h3 => isTrue (by rw [h1, h2, h3])
      | isFalse h1, _, _ =>
          isFalse (fun hh => by
            injection hh with hp _
            exact h1 (congrArg Prod.fst hp))
      | _, isFalse h2, _ =>
          isFalse (fun hh => by
            injection hh with hp _
            exact h2 (congrArg Prod.snd hp))
      | _, _, isFalse h3 => isFalse (fun hh => h3 (by injection hh))
  | [], _ :: _ => isFalse (fun hh => by injection hh)
  | _ :: _, [] => isFalse (fun hh => by injection hh)

end

instance : DecidableEq JVal := JVal.decEq

/-- `d.get(k, default)` on a Python dict: first value bound to `k`, or the
default when the key is absent. -/
def getD (fields : List (String × JVal)) (k : String) (d : JVal) : JVal :=
  match fields.lookup k with
  | some v => v
  | none => d

example : getD [("a", JVal.num 1)] "a" JVal.null = JVal.num 1 := by decide
example : getD [] "a" (JVal.str "") = JVal.str "" := by decide

/-- Whether a JSON value is an object (a Python dict, on which `.get` is legal). -/
def JVal.isObj : JVal → Bool
  | .obj _ => true
  | _ => false

/-- Python's `len` on a JSON value: defined on strings, lists and dicts,
`none` (a fatal `TypeError`) on `None`, booleans and numbers. -/
def pyLen : JVal → Option Nat
  | .str s => some s.length
  | .arr xs => some xs.length
  | .obj fs => some fs.length
  | _ => none

/-- Python's `v[:3]` slice: defined on lists and strings, `none` (a fatal
`TypeError`) on every other value. -/
def pySlice3 : JVal → Option JVal
  | .arr xs => some (JVal.arr (xs.take 3))
  | .str s => some (JVal.str (s.take 3))
  | _ => none

/-- The sequence Python's `for inc in all_incidents` iterates over: the
elements of a list, the keys of a dict, the one-character strings of a
string; `none` (a `TypeError`) on `None`, booleans and numbers. -/
def histIter : JVal → Option (List JVal)
  | .arr xs => some xs
  | .obj fs => some (fs.map (fun p => JVal.str p.1))
  | .str s => some (s.toList.map (fun c => JVal.str (String.singleton c)))
  | _ => none

/-- The comprehension predicate at line 31 of `aggregate_data.py`:
`inc.get('service') == service and inc.get('id') != incident_data.get('id')`,
where `service = incident_data.get('service', '')`.  A non-dict `inc` raises
`AttributeError` before the predicate returns; `selectMatches` accounts for
that, so the `false` returned here for non-objects is never relied on. -/
def matchPred (incident : List (String × JVal)) (inc : JVal) : Bool :=
  match inc with
  | JVal.obj fs =>
      getD fs "service" JVal.null == getD incident "service" (JVal.str "")
        && getD fs "id" JVal.null != getD incident "id" JVal.null
  | _ => false

/-- The list comprehension plus `[:3]` at lines 30-33: filters the iterated
items and keeps at most the first 3.  Returns `none` when some iterated item
is not a dict, in which case `inc.get('service')` raises `AttributeError`
(the comprehension evaluates `inc.get('service')` for every item, so any
non-dict item aborts the whole comprehension). -/
def selectMatches (incident : List (String × JVal)) (items : List JVal) :
    Option (List JVal) :=
  if items.all JVal.isObj then
    some ((items.filter (matchPred incident)).take 3)
  else
    none

/-- The state of the historical store file `/app/data/mock-incidents.json`:
absent (`os.path.exists` is false), present but unreadable (`open`/read
raises), present but not valid JSON (`json.load` raises), or present and
parsed to a JSON value. -/
inductive HistSource where
  | absent : HistSource
  | unreadable : HistSource
  | invalidJson : HistSource
  | parsed (v : JVal) : HistSource

/-- Lines 20-35 of `aggregate_data.py`: compute `historical_incidents`
together with whether the warning at line 35 is printed to stderr.  When the
file is absent the `if` body is skipped entirely (no warning); any exception
inside the `try` block is caught, warned about, and leaves
`historical_incidents` at its initial value `[]`. -/
def loadHistorical (incident : List (String × JVal)) (src : HistSource) :
    List JVal × Bool :=
  match src with
  | HistSource.absent => ([], false)
  | HistSource.unreadable => ([], true)
  | HistSource.invalidJson => ([], true)
  | HistSource.parsed v =>
      match histIter v with
      | none => ([], true)
      | some items =>
          match selectMatches incident items with
          | none => ([], true)
          | some sel => (sel, false)

/-- The `"logs"` entry of `data_sources`. -/
structure LogsInfo where
  source : String
  count : Nat
  sample : JVal

/-- The `"metrics"` and `"context"` entries of `data_sources`. -/
structure PassThroughInfo where
  source : String
  data : JVal

/-- The `"historical_patterns"` entry of `data_sources`. -/
structure HistoricalPatterns where
  source : String
  count : Nat
  incidents : List JVal

/-- The `data_sources` mapping of the aggregated report. -/
structure DataSources where
  logs : LogsInfo
  metrics : PassThroughInfo
  context : PassThroughInfo
  historical_patterns : HistoricalPatterns

/-- The `aggregation_summary` mapping of the aggregated report. -/
structure AggregationSummary where
  total_sources : Nat
  log_entries : Nat
  metric_points : Nat
  similar_incidents : Nat
  aggregation_timestamp : JVal

/-- The aggregated report built at lines 38-67 of `aggregate_data.py`. -/
structure AggregatedReport where
  current_incident : List (String × JVal)
  data_sources : DataSources
  aggregation_summary : AggregationSummary

/-- `aggregate_incident_data(incident_data)` for a dict `incident_data`,
parameterised by the state of the historical store file.  Returns
`some (report, warned)` where `warned` records whether the stderr warning
was printed, or `none` when building the report raises an uncaught
exception (`len` or `[:3]` applied to a value supporting neither, i.e. the
`"logs"` value is not a list or string, or the `"metrics"` value is `None`,
a boolean or a number). -/
def aggregate_incident_data (incident : List (String × JVal)) (src : HistSource) :
    Option (AggregatedReport × Bool) :=
  let hist := loadHistorical incident src
  let logsVal := getD incident "logs" (JVal.arr [])
  let metricsVal := getD incident "metrics" (JVal.obj [])
  match pyLen logsVal, pySlice3 logsVal, pyLen metricsVal with
  | some logCount, some sampleVal, some metricCount =>
      some ({ current_incident := incident,
              data_sources := {
                logs := { source := "current_incident", count := logCount,
                          sample := sampleVal },
                metrics := { source := "monitoring_system", data := metricsVal },
                context := { source := "service_registry",
                             data := getD incident "context" (JVal.obj []) },
                historical_patterns := { source := "incident_database",
                                         count := hist.1.length,
                                         incidents := hist.1 } },
              aggregation_summary := {
                total_sources := 4,
                log_entries := logCount,
                metric_points := metricCount,
                similar_incidents := hist.1.length,
                aggregation_timestamp := getD incident "timestamp" (JVal.str "") } },
            hist.2)
  | _, _, _ => none

/-- The primary incident input of the `__main__` block: the file named by
`sys.argv[1]` (or stdin) may be missing, unreadable, invalid JSON, or parse
to a JSON value. -/
inductive MainInput where
  | missing : MainInput
  | unreadable : MainInput
  | invalidJson : MainInput
  | parsed (v : JVal) : MainInput

/-- The `__main__` block (lines 71-80): load the incident input, aggregate,
print the report.  `none` models an uncaught exception, which terminates the
Python process with a non-zero exit status before the report is printed:
`open`/`json.load` failures propagate directly, and a parsed top-level value
that is not a dict has no `.get` attribute, so line 42
(`incident_data.get("logs", [])`) raises `AttributeError` outside any
`try` block.  (When the historical file is present, the earlier
`incident_data.get('service', '')` at line 28 raises inside the `try`,
is caught and warned about, and line 42 then still aborts the run.) -/
def runMain (inp : MainInput) (src : HistSource) : Option (AggregatedReport × Bool) :=
  match inp with
  | MainInput.parsed (JVal.obj fields) => aggregate_incident_data fields src
  | MainInput.parsed _ => none
  | MainInput.missing => none
  | MainInput.unreadable => none
  | MainInput.invalidJson => none

/-- The incident record of the worked example in the spec:
`{"id":"inc-2","service":"payments","logs":["a","b"],"metrics":{"cpu":90},"timestamp":"T1"}`. -/
def exampleIncident : List (String × JVal) :=
  [("id", JVal.str "inc-2"), ("service", JVal.str "payments"),
   ("logs", JVal.arr [JVal.str "a", JVal.str "b"]),
   ("metrics", JVal.obj [("cpu", JVal.num 90)]),
   ("timestamp", JVal.str "T1")]

/-- The historical store of the worked example in the spec:
`[{"id":"inc-1","service":"payments"},{"id":"inc-2","service":"payments"},{"id":"inc-3","service":"billing"}]`. -/
def exampleStore : List JVal :=
  [JVal.obj [("id", JVal.str "inc-1"), ("service", JVal.str "payments")],
   JVal.obj [("id", JVal.str "inc-2"), ("service", JVal.str "payments")],
   JVal.obj [("id", JVal.str "inc-3"), ("service", JVal.str "billing")]]

/-- C1: for every incident record and every historical store sequence (a list
of record objects), the selected historical matches are exactly the first
at-most-3 records of the store, in order, whose `service` value (null when
absent) equals the incident's `service` (empty string when absent) and whose
`id` value differs from the incident's `id`; in particular at most 3 entries
are selected, none with the incident's `id`, and all with a matching
`service`. -/
theorem selectMatches_spec (incident : List (String × JVal)) (items : List JVal)
    (h : items.all JVal.isObj = true) :
    ∃ sel, selectMatches incident items = some sel ∧
      loadHistorical incident (HistSource.parsed (JVal.arr items)) = (sel, false) ∧
      sel = (items.filter (matchPred incident)).take 3 ∧
      sel.length ≤ 3 ∧
      ∀ r ∈ sel, ∃ fs, r = JVal.obj fs ∧
        getD fs "service" JVal.null = getD incident "service" (JVal.str "") ∧
        getD fs "id" JVal.null ≠ getD incident "id" JVal.null := by
  refine ⟨(items.filter (matchPred incident)).take 3, ?_, ?_, rfl, ?_, ?_⟩
  · simp [selectMatches, h]
  · simp [loadHistorical, histIter, selectMatches, h]
  · exact (List.length_take 3 _).le.trans (min_le_left 3 _)
  · intro r hr
    have hmem : r ∈ items.filter (matchPred incident) := List.mem_of_mem_take hr
    have hpred : matchPred incident r = true := (List.mem_filter.mp hmem).2
    cases r with
    | obj fs =>
        simp only [matchPred, Bool.and_eq_true, beq_iff_eq, bne_iff_ne, ne_eq] at hpred
        exact ⟨fs, rfl, hpred.1, hpred.2⟩
    | null => simp [matchPred] at hpred
    | bool b => simp [matchPred] at hpred
    | num n => simp [matchPred] at hpred
    | str s => simp [matchPred] at hpred
    | arr xs => simp [matchPred] at hpred

/-- Witness for C1 at the worked example's inputs. -/
theorem selectMatches_spec_witness :
    exampleStore.all JVal.isObj = true ∧
    (∃ sel, selectMatches exampleIncident exampleStore = some sel ∧
      loadHistorical exampleIncident (HistSource.parsed (JVal.arr exampleStore))
        = (sel, false) ∧
      sel = (exampleStore.filter (matchPred exampleIncident)).take 3 ∧
      sel.length ≤ 3 ∧
      ∀ r ∈ sel, ∃ fs, r = JVal.obj fs ∧
        getD fs "service" JVal.null = getD exampleIncident "service" (JVal.str "") ∧
        getD fs "id" JVal.null ≠ getD exampleIncident "id" JVal.null) :=
  ⟨by decide, selectMatches_spec exampleIncident exampleStore (by decide)⟩

/-- C7: on the spec's worked example, `historical_patterns.count` is 1 and
the single selected match is the record with id `inc-1`. -/
theorem aggregate_worked_example :
    Option.map
      (fun p => (p.1.data_sources.historical_patterns.count,
                 p.1.data_sources.historical_patterns.incidents))
      (aggregate_incident_data exampleIncident (HistSource.parsed (JVal.arr exampleStore)))
    = some (1, [JVal.obj [("id", JVal.str "inc-1"), ("service", JVal.str "payments")]]) :=
  rfl

/-- C2: whenever `aggregate_incident_data` returns a report, its
`current_incident` field is the input record itself; the embedding is a pure
function of the record, which is only read, never mutated. -/
theorem aggregate_preserves_current_incident
    (incident : List (String × JVal)) (src : HistSource)
    (rep : AggregatedReport) (w : Bool)
    (h : aggregate_incident_data incident src = some (rep, w)) :
    rep.current_incident = incident := by
  dsimp only [aggregate_incident_data] at h
  cases hp1 : pyLen (getD incident "logs" (JVal.arr [])) <;> rw [hp1] at h <;>
    cases hp2 : pySlice3 (getD incident "logs" (JVal.arr [])) <;> rw [hp2] at h <;>
      cases hp3 : pyLen (getD incident "metrics" (JVal.obj [])) <;> rw [hp3] at h <;>
        simp only [Option.some.injEq, Prod.mk.injEq, reduceCtorEq] at h
  obtain ⟨h1, _⟩ := h
  rw [← h1]

/-- The report produced for the empty incident record with no historical
store: used to instantiate hypotheses of several theorems at a concrete
input. -/
def emptyReport : AggregatedReport :=
  { current_incident := [],
    data_sources := {
      logs := { source := "current_incident", count := 0, sample := JVal.arr [] },
      metrics := { source := "monitoring_system", data := JVal.obj [] },
      context := { source := "service_registry", data := JVal.obj [] },
      historical_patterns := { source := "incident_database", count := 0,
                               incidents := [] } },
    aggregation_summary := {
      total_sources := 4, log_entries := 0, metric_points := 0,
      similar_incidents := 0, aggregation_timestamp := JVal.str "" } }

/-- Witness for C2 at the empty incident record. -/
theorem aggregate_preserves_current_incident_witness :
    aggregate_incident_data [] HistSource.absent = some (emptyReport, false) ∧
    emptyReport.current_incident = [] :=
  ⟨rfl, aggregate_preserves_current_incident [] HistSource.absent emptyReport false rfl⟩

/-- C8: in every report produced, `aggregation_summary.log_entries` equals
`data_sources.logs.count`, and `aggregation_summary.similar_incidents`
equals `data_sources.historical_patterns.count`, which equals the length of
`data_sources.historical_patterns.incidents`. -/
theorem aggregate_report_consistency
    (incident : List (String × JVal)) (src : HistSource)
    (rep : AggregatedReport) (w : Bool)
    (h : aggregate_incident_data incident src = some (rep, w)) :
    rep.aggregation_summary.log_entries = rep.data_sources.logs.count ∧
    rep.aggregation_summary.similar_incidents
      = rep.data_sources.historical_patterns.count ∧
    rep.data_sources.historical_patterns.count
      = rep.data_sources.historical_patterns.incidents.length := by
  dsimp only [aggregate_incident_data] at h
  cases hp1 : pyLen (getD incident "logs" (JVal.arr [])) <;> rw [hp1] at h <;>
    cases hp2 : pySlice3 (getD incident "logs" (JVal.arr [])) <;> rw [hp2] at h <;>
      cases hp3 : pyLen (getD incident "metrics" (JVal.obj [])) <;> rw [hp3] at h <;>
        simp only [Option.some.injEq, Prod.mk.injEq, reduceCtorEq] at h
  obtain ⟨h1, _⟩ := h
  rw [← h1]
  exact ⟨rfl, rfl, rfl⟩

/-- Witness for C8 at the empty incident record. -/
theorem aggregate_report_consistency_witness :
    aggregate_incident_data [] HistSource.absent = some (emptyReport, false) ∧
    (emptyReport.aggregation_summary.log_entries
        = emptyReport.data_sources.logs.count ∧
      emptyReport.aggregation_summary.similar_incidents
        = emptyReport.data_sources.historical_patterns.count ∧
      emptyReport.data_sources.historical_patterns.count
        = emptyReport.data_sources.historical_patterns.incidents.length) :=
  ⟨rfl, aggregate_report_consistency [] HistSource.absent emptyReport false rfl⟩

/-- C3: for every incident record whose `logs` value is a list (or absent)
and whose `metrics` value is a mapping (or absent), the report's
`aggregation_summary` has `total_sources = 4`, `log_entries` the length of
the logs, `metric_points` the number of metric entries, `similar_incidents`
the number of selected historical matches, and `aggregation_timestamp` the
incident's `timestamp` value (empty string when absent). -/
theorem aggregate_summary_counts
    (incident : List (String × JVal)) (src : HistSource)
    (ls : List JVal) (ms : List (String × JVal))
    (hlogs : getD incident "logs" (JVal.arr []) = JVal.arr ls)
    (hmets : getD incident "metrics" (JVal.obj []) = JVal.obj ms) :
    ∃ rep w, aggregate_incident_data incident src = some (rep, w) ∧
      rep.aggregation_summary.total_sources = 4 ∧
      rep.aggregation_summary.log_entries = ls.length ∧
      rep.aggregation_summary.metric_points = ms.length ∧
      rep.aggregation_summary.similar_incidents
        = (loadHistorical incident src).1.length ∧
      rep.aggregation_summary.aggregation_timestamp
        = getD incident "timestamp" (JVal.str "") := by
  dsimp only [aggregate_incident_data]
  rw [hlogs, hmets]
  exact ⟨_, _, rfl, rfl, rfl, rfl, rfl, rfl⟩

/-- Witness for C3 at the worked example's incident record. -/
theorem aggregate_summary_counts_witness :
    getD exampleIncident "logs" (JVal.arr [])
      = JVal.arr [JVal.str "a", JVal.str "b"] ∧
    getD exampleIncident "metrics" (JVal.obj [])
      = JVal.obj [("cpu", JVal.num 90)] ∧
    (∃ rep w, aggregate_incident_data exampleIncident HistSource.absent
        = some (rep, w) ∧
      rep.aggregation_summary.total_sources = 4 ∧
      rep.aggregation_summary.log_entries
        = ([JVal.str "a", JVal.str "b"] : List JVal).length ∧
      rep.aggregation_summary.metric_points
        = ([("cpu", JVal.num 90)] : List (String × JVal)).length ∧
      rep.aggregation_summary.similar_incidents
        = (loadHistorical exampleIncident HistSource.absent).1.length ∧
      rep.aggregation_summary.aggregation_timestamp
        = getD exampleIncident "timestamp" (JVal.str "")) :=
  ⟨rfl, rfl, aggregate_summary_counts exampleIncident HistSource.absent
    [JVal.str "a", JVal.str "b"] [("cpu", JVal.num 90)] rfl rfl⟩

/-- C4: for every incident record whose `logs` value is a list (or absent)
and whose `metrics` value is a mapping (or absent), the report's
`data_sources` has `logs.count` the length of the logs, `logs.sample` the
first `min 3 (length)` log entries in order, `metrics.data` the incident's
metrics value unchanged, and `context.data` the incident's context value
unchanged (empty mapping when absent). -/
theorem aggregate_data_sources_spec
    (incident : List (String × JVal)) (src : HistSource)
    (ls : List JVal) (ms : List (String × JVal))
    (hlogs : getD incident "logs" (JVal.arr []) = JVal.arr ls)
    (hmets : getD incident "metrics" (JVal.obj []) = JVal.obj ms) :
    ∃ rep w, aggregate_incident_data incident src = some (rep, w) ∧
      rep.data_sources.logs.count = ls.length ∧
      rep.data_sources.logs.sample = JVal.arr (ls.take 3) ∧
      (ls.take 3).length = min 3 ls.length ∧
      rep.data_sources.metrics.data = JVal.obj ms ∧
      rep.data_sources.context.data = getD incident "context" (JVal.obj []) := by
  dsimp only [aggregate_incident_data]
  rw [hlogs, hmets]
  exact ⟨_, _, rfl, rfl, rfl, List.length_take 3 ls, rfl, rfl⟩

/-- Witness for C4 at the worked example's incident record. -/
theorem aggregate_data_sources_spec_witness :
    getD exampleIncident "logs" (JVal.arr [])
      = JVal.arr [JVal.str "a", JVal.str "b"] ∧
    getD exampleIncident "metrics" (JVal.obj [])
      = JVal.obj [("cpu", JVal.num 90)] ∧
    (∃ rep w, aggregate_incident_data exampleIncident HistSource.absent
        = some (rep, w) ∧
      rep.data_sources.logs.count
        = ([JVal.str "a", JVal.str "b"] : List JVal).length ∧
      rep.data_sources.logs.sample
        = JVal.arr (([JVal.str "a", JVal.str "b"] : List JVal).take 3) ∧
      (([JVal.str "a", JVal.str "b"] : List JVal).take 3).length
        = min 3 ([JVal.str "a", JVal.str "b"] : List JVal).length ∧
      rep.data_sources.metrics.data = JVal.obj [("cpu", JVal.num 90)] ∧
      rep.data_sources.context.data
        = getD exampleIncident "context" (JVal.obj [])) :=
  ⟨rfl, rfl, aggregate_data_sources_spec exampleIncident HistSource.absent
    [JVal.str "a", JVal.str "b"] [("cpu", JVal.num 90)] rfl rfl⟩

/-- Counterexample to C5 as stated: with the historical store file absent,
the aggregator produces a report but emits no warning (the warned flag of
the result is `false`), contradicting "for an absent historical file a
warning is emitted". -/
theorem absent_store_emits_no_warning :
    Option.map Prod.snd (aggregate_incident_data [] HistSource.absent)
      = some false :=
  rfl

/-- C5 (amended): when the historical store file is unreadable or not valid
JSON, a warning is emitted and the historical match set is empty, with no
fatal error and the rest of the report unchanged; when the file is merely
absent, the aggregator also proceeds with an empty match set but emits no
warning. -/
theorem historical_failure_recoverable
    (incident : List (String × JVal)) (rep : AggregatedReport) (w : Bool)
    (habs : aggregate_incident_data incident HistSource.absent = some (rep, w)) :
    w = false ∧
    rep.data_sources.historical_patterns.count = 0 ∧
    rep.aggregation_summary.similar_incidents = 0 ∧
    aggregate_incident_data incident HistSource.unreadable = some (rep, true) ∧
    aggregate_incident_data incident HistSource.invalidJson = some (rep, true) := by
  dsimp only [aggregate_incident_data, loadHistorical] at habs ⊢
  cases hp1 : pyLen (getD incident "logs" (JVal.arr [])) <;> rw [hp1] at habs <;>
    cases hp2 : pySlice3 (getD incident "logs" (JVal.arr [])) <;> rw [hp2] at habs <;>
      cases hp3 : pyLen (getD incident "metrics" (JVal.obj [])) <;> rw [hp3] at habs <;>
        simp only [Option.some.injEq, Prod.mk.injEq, reduceCtorEq] at habs
  obtain ⟨h1, h2⟩ := habs
  rw [← h1, ← h2]
  exact ⟨rfl, rfl, rfl, rfl, rfl⟩

/-- Witness for the amended C5 at the empty incident record. -/
theorem historical_failure_recoverable_witness :
    aggregate_incident_data [] HistSource.absent = some (emptyReport, false) ∧
    (false = false ∧
      emptyReport.data_sources.historical_patterns.count = 0 ∧
      emptyReport.aggregation_summary.similar_incidents = 0 ∧
      aggregate_incident_data [] HistSource.unreadable = some (emptyReport, true) ∧
      aggregate_incident_data [] HistSource.invalidJson = some (emptyReport, true)) :=
  ⟨rfl, historical_failure_recoverable [] emptyReport false rfl⟩

/-- C6: every fatal primary-input case — the incident input missing,
unreadable, not valid JSON, or parsed to a non-mapping top-level value —
aborts the run with no aggregated report produced on standard output. -/
theorem main_fatal_inputs_abort (src : HistSource) (v : JVal)
    (hv : v.isObj = false) :
    runMain MainInput.missing src = none ∧
    runMain MainInput.unreadable src = none ∧
    runMain MainInput.invalidJson src = none ∧
    runMain (MainInput.parsed v) src = none := by
  refine ⟨rfl, rfl, rfl, ?_⟩
  cases v <;> simp_all [runMain, JVal.isObj]

/-- Witness for C6 with a `null` top-level incident value. -/
theorem main_fatal_inputs_abort_witness :
    JVal.null.isObj = false ∧
    (runMain MainInput.missing HistSource.absent = none ∧
      runMain MainInput.unreadable HistSource.absent = none ∧
      runMain MainInput.invalidJson HistSource.absent = none ∧
      runMain (MainInput.parsed JVal.null) HistSource.absent = none) :=
  ⟨rfl, main_fatal_inputs_abort HistSource.absent JVal.null rfl⟩

/-- C9: a historical store record without a `service` key is never selected,
for every incident record whose own `service` field, when present, is a
string (the incident's service defaults to the empty string when absent, and
neither a string nor the empty-string default ever equals the null yielded
by the record's missing key). -/
theorem record_without_service_never_selected
    (incident : List (String × JVal)) (fs : List (String × JVal))
    (items : List JVal) (sel : List JVal)
    (hval : ∀ v, incident.lookup "service" = some v → ∃ s, v = JVal.str s)
    (hnos : fs.lookup "service" = none)
    (hsel : selectMatches incident items = some sel) :
    JVal.obj fs ∉ sel := by
  intro hmem
  dsimp only [selectMatches] at hsel
  by_cases hall : items.all JVal.isObj
  · rw [if_pos hall] at hsel
    obtain rfl : (items.filter (matchPred incident)).take 3 = sel :=
      Option.some.inj hsel
    have hfil : JVal.obj fs ∈ items.filter (matchPred incident) :=
      List.mem_of_mem_take hmem
    have hpred : matchPred incident (JVal.obj fs) = true :=
      (List.mem_filter.mp hfil).2
    simp only [matchPred, Bool.and_eq_true, beq_iff_eq] at hpred
    have hserv : getD fs "service" JVal.null = JVal.null := by
      simp [getD, hnos]
    rw [hserv] at hpred
    rcases hlook : incident.lookup "service" with _ | v
    · have : getD incident "service" (JVal.str "") = JVal.str "" := by
        simp [getD, hlook]
      rw [this] at hpred
      exact JVal.noConfusion hpred.1
    · obtain ⟨s, rfl⟩ := hval v hlook
      have : getD incident "service" (JVal.str "") = JVal.str s := by
        simp [getD, hlook]
      rw [this] at hpred
      exact JVal.noConfusion hpred.1
  · rw [if_neg hall] at hsel
    exact Option.noConfusion hsel

/-- Witness for C9: a record with no `service` key against the empty
incident and a one-element store. -/
theorem record_without_service_never_selected_witness :
    ([] : List (String × JVal)).lookup "service" = none ∧
    selectMatches [] [JVal.obj []] = some [] ∧
    JVal.obj [] ∉ ([] : List JVal) :=
  ⟨rfl, rfl,
    record_without_service_never_selected [] [] [JVal.obj []] []
      (fun _ h => nomatch h) rfl rfl⟩

/-- Counterexample to C10 as stated: a historical store whose parsed value is
the empty mapping `{}` is valid JSON and not an array of mappings, yet the
aggregator emits no warning (iterating the empty dict raises nothing and
yields no items), contradicting "it emits a warning to the error stream". -/
theorem empty_object_store_emits_no_warning :
    Option.map Prod.snd
        (aggregate_incident_data [] (HistSource.parsed (JVal.obj [])))
      = some false :=
  rfl

/-- Two historical-source states yielding the same match list produce the
same report, the warned flag aside. -/
theorem aggregate_hist_congr (incident : List (String × JVal))
    (s1 s2 : HistSource)
    (h : (loadHistorical incident s1).1 = (loadHistorical incident s2).1) :
    aggregate_incident_data incident s1
      = Option.map (fun p => (p.1, (loadHistorical incident s1).2))
          (aggregate_incident_data incident s2) := by
  dsimp only [aggregate_incident_data]
  rw [h]
  cases pyLen (getD incident "logs" (JVal.arr [])) <;>
    cases pySlice3 (getD incident "logs" (JVal.arr [])) <;>
      cases pyLen (getD incident "metrics" (JVal.obj [])) <;>
        rfl

/-- C10 (amended): when the historical store file parses to a value that is
not an array of mappings, the aggregator never aborts: the historical match
set is empty and the rest of the report is exactly what an absent store
yields; a warning is emitted except when the value iterates to no element at
all — the empty mapping `{}` and the empty string `""` — in which case it
proceeds silently. -/
theorem nonarray_store_recoverable (incident : List (String × JVal)) (v : JVal)
    (hna : ∀ xs, v = JVal.arr xs → xs.all JVal.isObj = false) :
    (loadHistorical incident (HistSource.parsed v)).1 = [] ∧
    ((loadHistorical incident (HistSource.parsed v)).2 = false
      ↔ (v = JVal.obj [] ∨ v = JVal.str "")) ∧
    aggregate_incident_data incident (HistSource.parsed v)
      = Option.map (fun p => (p.1, (loadHistorical incident (HistSource.parsed v)).2))
          (aggregate_incident_data incident HistSource.absent) := by
  have key : (loadHistorical incident (HistSource.parsed v)).1 = [] ∧
      ((loadHistorical incident (HistSource.parsed v)).2 = false
        ↔ (v = JVal.obj [] ∨ v = JVal.str "")) := by
    cases v with
    | null => simp [loadHistorical, histIter]
    | bool b => simp [loadHistorical, histIter]
    | num n => simp [loadHistorical, histIter]
    | str s =>
        obtain ⟨cs⟩ := s
        cases cs with
        | nil =>
            simp [loadHistorical, histIter, selectMatches]
        | cons c cs =>
            simp [loadHistorical, histIter, selectMatches, JVal.isObj]
            intro hh
            have h2 := congrArg String.data hh
            simp at h2
    | arr xs =>
        have := hna xs rfl
        simp [loadHistorical, histIter, selectMatches, this]
    | obj fs =>
        cases fs with
        | nil => simp [loadHistorical, histIter, selectMatches]
        | cons p fs =>
            simp [loadHistorical, histIter, selectMatches, JVal.isObj]
  refine ⟨key.1, key.2, ?_⟩
  exact aggregate_hist_congr incident (HistSource.parsed v) HistSource.absent key.1

/-- Witness for the amended C10 with a numeric (non-iterable) store value. -/
theorem nonarray_store_recoverable_witness :
    (loadHistorical [] (HistSource.parsed (JVal.num 5))).1 = [] ∧
    ((loadHistorical [] (HistSource.parsed (JVal.num 5))).2 = false
      ↔ (JVal.num 5 = JVal.obj [] ∨ JVal.num 5 = JVal.str "")) ∧
    aggregate_incident_data [] (HistSource.parsed (JVal.num 5))
      = Option.map (fun p => (p.1, (loadHistorical [] (HistSource.parsed (JVal.num 5))).2))
          (aggregate_incident_data [] HistSource.absent) :=
  nonarray_store_recoverable [] (JVal.num 5) (fun _ h => nomatch h)
